import Mathlib

/-!
Verification development for the meep-research-mcp repository.

The file embeds, as executable Lean definitions, the parts of the source that
the checked claims are about:

* src/google_search.py : the rate limiter (GoogleSearchRateLimiter), the
  human-readable reset estimate (get_reset_time), the paginated search client
  (search_google_custom) and the query validator (validate_and_convert_query).
* src/search_strategies.py : the QueryTranslator pipeline (_extract_entities,
  _detect_relationships, _parse_restrictions, _detect_content_focus,
  _apply_content_focus, _build_proximity_query, translate_request).

Modelling conventions:
* Timestamps are natural numbers (seconds).  Python uses floats; every
  comparison the code performs (`now - t < 60`, `now - last > 86400`) gives the
  same answer on truncated natural subtraction, because a negative difference
  and a difference truncated to zero fall on the same side of both bounds.
* Character predicates (isupper, \w, \s, lower) are modelled on ASCII, which
  coincides with Python on ASCII input; all concrete inputs used below are
  ASCII.
* Python builds the entity list and then runs it through `list(set(...))`,
  whose iteration order is unspecified.  The embedding uses a deterministic
  first-occurrence deduplication; theorems cited as evidence about entity
  order independence are phrased so that they hold under any iteration order.
* The while loop of search_google_custom is embedded with an explicit
  iteration budget (`fuel`).  Every continued iteration of the Python loop
  decreases results_needed by at least one (it only continues when
  len(items) >= current_batch_size >= 1), so fuel = initial results_needed
  bounds the iteration count exactly; search_google_custom passes that fuel.
-/

/-! ## Rate limiter (GoogleSearchRateLimiter, src/google_search.py lines 34-118) -/

structure LimiterConfig where
  maxRequestsPerDay : Nat
  maxRequestsPerMinute : Nat
deriving DecidableEq

structure LimiterState where
  dailyCount : Nat
  minuteRequests : List Nat
  lastReset : Nat
deriving DecidableEq

/-- GoogleSearchRateLimiter.can_make_request: resets the daily window,
prunes the minute window, and returns whether both budgets have room.
The method mutates the limiter; the embedding returns the new state. -/
def canMakeRequest (cfg : LimiterConfig) (now : Nat) (st : LimiterState) :
    Bool × LimiterState :=
  let st1 :=
    if now - st.lastReset > 86400 then
      { st with dailyCount := 0, lastReset := now }
    else st
  let pruned := st1.minuteRequests.filter (fun t => now - t < 60)
  let st2 := { st1 with minuteRequests := pruned }
  (decide (st2.dailyCount < cfg.maxRequestsPerDay) &&
     decide (pruned.length < cfg.maxRequestsPerMinute), st2)

/-- GoogleSearchRateLimiter.record_request: increments the daily count and
appends the current time to the minute window. -/
def recordRequest (now : Nat) (st : LimiterState) : LimiterState :=
  { st with dailyCount := st.dailyCount + 1,
            minuteRequests := st.minuteRequests ++ [now] }

/-- get_reset_time (src/google_search.py lines 93-113).  The daily branch of
the Python code computes the next local midnight via datetime; the embedding
takes the next UTC midnight of the integer clock, which is the same arithmetic
for a UTC-localised process.  Python min() on an empty list raises; that can
only happen when maxRequestsPerMinute = 0, where the embedding returns the
getD default instead. -/
def getResetTime (cfg : LimiterConfig) (now : Nat) (st : LimiterState) : String :=
  if st.dailyCount ≥ cfg.maxRequestsPerDay then
    let secs := (now / 86400 + 1) * 86400 - now
    let hours := secs / 3600
    let minutes := secs % 3600 / 60
    toString hours ++ "h " ++ toString minutes ++ "m"
  else if st.minuteRequests.length ≥ cfg.maxRequestsPerMinute then
    let oldest := st.minuteRequests.foldr min now
    let secsM := 60 - (now - oldest)
    toString secsM ++ "s"
  else "now"

/-! ## Paginated search client (search_google_custom, lines 120-231) -/

/-- One raw item of the backend JSON answer; each field may be absent
(Python reads them with item.get(key, "")). -/
structure GoogleItem where
  title : Option String
  link : Option String
  snippet : Option String
  displayLink : Option String
  formattedUrl : Option String
deriving DecidableEq

/-- One normalized result dict appended to all_results. -/
structure SearchResultItem where
  title : String
  url : String
  snippet : String
  domain : String
  formatted_url : String
  rank : Nat
deriving DecidableEq

/-- Outcome of one backend page request, as the code distinguishes them:
HTTP 200 with items, HTTP 429, HTTP 403 with an optional error.message,
any other status with a body, or an aiohttp.ClientError before a response
exists. -/
inductive BackendResponse where
  | ok (items : List GoogleItem)
  | status429
  | status403 (msg : Option String)
  | statusOther (code : Nat) (body : String)
  | transportError (msg : String)

/-- Instrumentation events of one search_google_custom invocation:
a rate-limit check (line 147), a backend page dispatch (line 177), and a
record_request call (line 180). -/
inductive SearchEvent where
  | checked (ok : Bool)
  | dispatched (start num : Nat)
  | recorded
deriving DecidableEq

/-- Caller-visible outcome of search_google_custom: the aggregated result
list, or a GoogleCustomSearchError carrying the given message. -/
inductive SearchOutcome where
  | ok (items : List SearchResultItem)
  | error (msg : String)
deriving DecidableEq

/-- Result of the try block body: normal completion, a
GoogleCustomSearchError raised inside the try (lines 212, 217, 221), or an
aiohttp.ClientError escaping the page request (caught at line 226). -/
inductive LoopExit where
  | results (items : List SearchResultItem)
  | raised (msg : String)
  | client (msg : String)
deriving DecidableEq

/-- Normalization of one backend page (lines 188-196): each item is turned
into a result dict with "" defaults and rank = len(all_results) + 1. -/
def normalizeItems : List GoogleItem → Nat → List SearchResultItem
  | [], _ => []
  | it :: rest, n =>
      { title := it.title.getD "", url := it.link.getD "",
        snippet := it.snippet.getD "", domain := it.displayLink.getD "",
        formatted_url := it.formattedUrl.getD "", rank := n + 1 }
        :: normalizeItems rest (n + 1)

/-- The while loop of search_google_custom (lines 159-221), instrumented with
an event trace.  `fuel` bounds the iteration count (see the header comment);
the loop continues only while results_needed > 0 and current_start <= 100,
requests min(results_needed, 10) items per page, records after every page
that produced an HTTP response, and stops early on a short page. -/
def searchLoop (backend : Nat → Nat → BackendResponse) :
    Nat → Nat → Nat → List SearchResultItem → LimiterState → Nat →
    LoopExit × LimiterState × List SearchEvent
  | 0, _, _, acc, st, _ => (.results acc, st, [])
  | fuel + 1, needed, start, acc, st, now =>
    if 0 < needed ∧ start ≤ 100 then
      let num := min needed 10
      match backend start num with
      | .transportError m =>
          (.client m, st, [.dispatched start num])
      | .status429 =>
          (.raised "Rate limit exceeded by Google API", recordRequest now st,
           [.dispatched start num, .recorded])
      | .status403 msg =>
          (.raised ("API Error: " ++ msg.getD "API key invalid or quota exceeded"),
           recordRequest now st, [.dispatched start num, .recorded])
      | .statusOther code body =>
          (.raised ("API request failed with status " ++ toString code ++ ": "
              ++ body.take 200),
           recordRequest now st, [.dispatched start num, .recorded])
      | .ok items =>
          let st' := recordRequest now st
          let acc' := acc ++ normalizeItems items acc.length
          let needed' := needed - items.length
          let start' := start + items.length
          if items.length < num then
            (.results acc', st', [.dispatched start num, .recorded])
          else
            let r := searchLoop backend fuel needed' start' acc' st' now
            (r.1, r.2.1, .dispatched start num :: .recorded :: r.2.2)
    else (.results acc, st, [])

/-- search_google_custom (lines 120-231): one rate-limit check before the
loop, then the paginated loop; errors raised inside the try block are caught
by the final `except Exception` clause and re-raised with an
"Unexpected error: " prefix, while aiohttp.ClientError is caught first and
re-raised as "Network error: ...".  The backend function stands for the HTTP
collaborator already specialised to the query string. -/
def search_google_custom (cfg : LimiterConfig)
    (backend : Nat → Nat → BackendResponse) (now : Nat) (st : LimiterState)
    (maxResults startIndex : Nat) :
    SearchOutcome × LimiterState × List SearchEvent :=
  let c := canMakeRequest cfg now st
  if c.1 then
    match searchLoop backend maxResults maxResults startIndex [] c.2 now with
    | (.results items, st2, tr) => (.ok items, st2, .checked true :: tr)
    | (.raised m, st2, tr) =>
        (.error ("Unexpected error: " ++ m), st2, .checked true :: tr)
    | (.client m, st2, tr) =>
        (.error ("Network error: " ++ m), st2, .checked true :: tr)
  else
    (.error ("Rate limit exceeded. Try again in " ++ getResetTime cfg now c.2),
     c.2, [.checked false])

/-! ## Trace observables -/

def isCheckedEvent : SearchEvent → Bool
  | .checked _ => true
  | _ => false

def isDispatchedEvent : SearchEvent → Bool
  | .dispatched _ _ => true
  | _ => false

def isRecordedEvent : SearchEvent → Bool
  | .recorded => true
  | _ => false

def countChecked (tr : List SearchEvent) : Nat := tr.countP isCheckedEvent

def countDispatched (tr : List SearchEvent) : Nat := tr.countP isDispatchedEvent

def countRecorded (tr : List SearchEvent) : Nat := tr.countP isRecordedEvent

/-- The (start, num) parameters of the page requests, in dispatch order. -/
def dispatchParams (tr : List SearchEvent) : List (Nat × Nat) :=
  tr.filterMap fun e =>
    match e with
    | .dispatched s n => some (s, n)
    | _ => none

/-- Scans a trace maintaining the flag "a check returning true has happened
since the last dispatch"; true iff every dispatch is covered by a fresh
positive check. -/
def dispatchesFreshlyChecked : Bool → List SearchEvent → Bool
  | _, [] => true
  | _, .checked b :: rest => dispatchesFreshlyChecked b rest
  | ok, .dispatched _ _ :: rest => ok && dispatchesFreshlyChecked false rest
  | ok, .recorded :: rest => dispatchesFreshlyChecked ok rest

/-- True iff every record event immediately follows a dispatch and every
dispatch is immediately followed by a record, except that the final event of
the trace may be an unrecorded dispatch (the transport-failure case). -/
def wellRecorded : List SearchEvent → Bool
  | [] => true
  | .checked _ :: rest => wellRecorded rest
  | .recorded :: _ => false
  | [.dispatched _ _] => true
  | .dispatched _ _ :: .recorded :: rest => wellRecorded rest
  | .dispatched _ _ :: .checked _ :: _ => false
  | .dispatched _ _ :: .dispatched _ _ :: _ => false

def endsWithDispatched : List SearchEvent → Bool
  | [] => false
  | [.dispatched _ _] => true
  | [_] => false
  | _ :: rest => endsWithDispatched rest

/-- A backend that answers every page request with exactly the requested
number of items (the stub of the pagination claim). -/
def fullPageBackend : Nat → Nat → BackendResponse := fun _ num =>
  .ok (List.replicate num { title := none, link := none, snippet := none,
                            displayLink := none, formattedUrl := none })

/-! ## Character helpers (ASCII models of the Python predicates) -/

/-- Python str whitespace on ASCII: space, tab, newline, carriage return,
vertical tab, form feed. -/
def isPySpace (c : Char) : Bool :=
  c.toNat = 32 || c.toNat = 9 || c.toNat = 10 || c.toNat = 13 ||
  c.toNat = 11 || c.toNat = 12

/-- Python re \w on ASCII: letters, digits, underscore. -/
def isWordChar (c : Char) : Bool := c.isAlphanum || c = '_'

/-- Python str.strip() on a character list. -/
def pyStrip (l : List Char) : List Char :=
  ((l.dropWhile isPySpace).reverse.dropWhile isPySpace).reverse

/-- Python str.strip() on a string. -/
def pyStripStr (s : String) : String := String.mk (pyStrip s.toList)

/-- Python str.split() with no argument: split on whitespace runs,
discarding empty pieces.  Accumulator-based so that it is structurally
recursive. -/
def pySplitAux : List Char → List Char → List (List Char)
  | [], acc => if acc.isEmpty then [] else [acc.reverse]
  | c :: rest, acc =>
    if isPySpace c then
      if acc.isEmpty then pySplitAux rest [] else acc.reverse :: pySplitAux rest []
    else pySplitAux rest (c :: acc)

def pySplit (l : List Char) : List (List Char) := pySplitAux l []

/-- Does `pre` occur at the head of `l`? -/
def leadsWith : List Char → List Char → Bool
  | [], _ => true
  | _ :: _, [] => false
  | a :: as, b :: bs => a = b && leadsWith as bs

/-- Does `needle` occur anywhere in `hay` (Python `needle in hay`)? -/
def hasSub (needle : List Char) : List Char → Bool
  | [] => needle.isEmpty
  | c :: rest => leadsWith needle (c :: rest) || hasSub needle rest

/-- Number of positions of `hay` at which `needle` occurs. -/
def countOcc (needle : List Char) : List Char → Nat
  | [] => 0
  | c :: rest => (if leadsWith needle (c :: rest) then 1 else 0) + countOcc needle rest

def countOccStr (hay needle : String) : Nat := countOcc needle.toList hay.toList

def natOfDigits (ds : List Char) : Nat :=
  ds.foldl (fun a c => a * 10 + (c.toNat - 48)) 0

/-! ## Request Analyzer (src/search_strategies.py) -/

/-- re.findall applied to the pattern quote, capture of non-quotes, quote
(line 138): the verbatim contents of successive quote pairs, scanning left to
right; a trailing unmatched quote yields no further match.  The state is
none outside a quoted span and some acc (reversed) inside one. -/
def findQuotedAux : List Char → Option (List Char) → List (List Char)
  | [], _ => []
  | '"' :: rest, none => findQuotedAux rest (some [])
  | '"' :: rest, some acc => acc.reverse :: findQuotedAux rest none
  | _ :: rest, none => findQuotedAux rest none
  | c :: rest, some acc => findQuotedAux rest (some (c :: acc))

def findQuoted (l : List Char) : List (List Char) := findQuotedAux l none

/-- Python word[0].isupper() for a split word (split words are nonempty). -/
def firstUpper : List Char → Bool
  | [] => false
  | c :: _ => c.isUpper

def joinWords (ws : List (List Char)) : List Char := List.intercalate [' '] ws

/-- The capitalized-run entities collected by the loop of _extract_entities
(lines 143-154): for EVERY index i > 0 whose word starts with an uppercase
letter, the run of consecutive capitalized words starting at i is appended
(the loop does not skip positions inside an already collected run, so
suffix-runs are collected too). -/
def capRunsAux : List (List Char) → List (List Char)
  | [] => []
  | w :: rest =>
      (if firstUpper w then [joinWords (w :: rest.takeWhile firstUpper)] else [])
        ++ capRunsAux rest

/-- Runs starting at index 0 are excluded (i > 0 in the code). -/
def capRuns : List (List Char) → List (List Char)
  | [] => []
  | _ :: rest => capRunsAux rest

/-- Deduplication keeping first occurrences; stands for Python
list(set(entities)), whose iteration order is unspecified. -/
def dedupAux : List String → List String → List String
  | [], _ => []
  | x :: rest, seen =>
      if x ∈ seen then dedupAux rest seen
      else x :: dedupAux rest (x :: seen)

def dedupKeepFirst (l : List String) : List String := dedupAux l []

/-- _extract_entities (lines 133-160): quoted substrings, then capitalized
runs, then list(set(...)), then the filter len(e.strip()) > 1. -/
def extract_entities (request : String) : List String :=
  let chars := request.toList
  let quoted := (findQuoted chars).map String.mk
  let caps := (capRuns (pySplit chars)).map String.mk
  (dedupKeepFirst (quoted ++ caps)).filter
    (fun e => (pyStrip e.toList).length > 1)

/-- Leftmost match of the pattern within-space-digits-space-word
(line 178, applied to the lowercased request): the digit run is maximal and
must be followed by the literal " word". -/
def matchWithinAt (l : List Char) : Option Nat :=
  if leadsWith "within ".toList l then
    let after := l.drop 7
    let ds := after.takeWhile Char.isDigit
    let rest := after.drop ds.length
    if ds.length > 0 && leadsWith " word".toList rest then
      some (natOfDigits ds)
    else none
  else none

def findWithin : List Char → Option Nat
  | [] => none
  | c :: rest =>
    match matchWithinAt (c :: rest) with
    | some n => some n
    | none => findWithin rest

def proximityIndicators : List (List Char) :=
  ["close", "together", "near", "mentioned together", "same paragraph",
   "same sentence"].map String.toList

def hasProximityKeyword (request : String) : Bool :=
  let low := request.toList.map Char.toLower
  proximityIndicators.any (fun ind => hasSub ind low)

structure Relationships where
  proximity : Option Nat
  co_occurrence : Bool
  sequence : Bool
deriving DecidableEq

/-- _detect_relationships (lines 162-182): any fixed keyword sets the default
distance 3; an explicit "within N words" phrase overrides it afterwards
(and also fires without any keyword). -/
def detect_relationships (request : String) : Relationships :=
  let low := request.toList.map Char.toLower
  let base : Option Nat := if hasProximityKeyword request then some 3 else none
  let prox : Option Nat :=
    match findWithin low with
    | some n => some n
    | none => base
  { proximity := prox, co_occurrence := false, sequence := false }

def isDomChar (c : Char) : Bool := isWordChar c || c = '.' || c = '-'

/-- The domain part of the site_restriction pattern: a greedy run of
[word, dot, dash] characters, backtracking to the last dot that is followed
by at least one word character and is preceded by at least one character;
the tail after that dot is the maximal word-character run. -/
def domainMatch (l : List Char) : Option (List Char) :=
  let run := l.takeWhile isDomChar
  (List.range run.length).reverse.findSome? fun p =>
    if 1 ≤ p ∧ run.get? p = some '.' then
      let tail := (run.drop (p + 1)).takeWhile isWordChar
      if tail.length > 0 then some (run.take p ++ '.' :: tail) else none
    else none

def siteAfterKw (kw l : List Char) : Option (List Char) :=
  if leadsWith kw l then
    let after := l.drop kw.length
    let ws := after.takeWhile isPySpace
    let rest := after.drop ws.length
    if ws.length > 0 then domainMatch rest else none
  else none

/-- One attempt of the site_restriction pattern at a fixed position:
alternatives on, in, from in this order, then whitespace, then a
domain-shaped token. -/
def siteAt (l : List Char) : Option (List Char) :=
  (siteAfterKw "on".toList l).orElse fun _ =>
    (siteAfterKw "in".toList l).orElse fun _ =>
      siteAfterKw "from".toList l

/-- Leftmost match of the site_restriction pattern (line 196, searched on the
original-case request). -/
def siteScan : List Char → Option (List Char)
  | [] => none
  | c :: rest =>
    match siteAt (c :: rest) with
    | some d => some d
    | none => siteScan rest

/-- The optional slash-digits group of the time_restriction pattern:
a slash followed by one or two digits (greedy). -/
def slashPart (l : List Char) : Option (List Char × List Char) :=
  match l with
  | '/' :: rest =>
      let ds := (rest.takeWhile Char.isDigit).take 2
      if ds.length ≥ 1 then some ('/' :: ds, rest.drop ds.length) else none
  | _ => none

/-- The date group: exactly four digits, then up to two optional
slash-digit groups. -/
def dateMatch (l : List Char) : Option (List Char) :=
  let d4 := l.take 4
  if d4.length = 4 ∧ d4.all Char.isDigit then
    let rest := l.drop 4
    match slashPart rest with
    | some (p1, rest2) =>
      match slashPart rest2 with
      | some (p2, _) => some (d4 ++ p1 ++ p2)
      | none => some (d4 ++ p1)
    | none => some d4
  else none

def timeAfterKw (kw l : List Char) : Option (List Char × List Char) :=
  if leadsWith kw l then
    let after := l.drop kw.length
    let ws := after.takeWhile isPySpace
    let rest := after.drop ws.length
    if ws.length > 0 then (dateMatch rest).map (fun d => (kw, d)) else none
  else none

def timeAt (l : List Char) : Option (List Char × List Char) :=
  (timeAfterKw "after".toList l).orElse fun _ =>
    (timeAfterKw "since".toList l).orElse fun _ =>
      (timeAfterKw "before".toList l).orElse fun _ =>
        timeAfterKw "until".toList l

/-- Leftmost match of the time_restriction pattern (line 209, searched on the
original-case request); yields (direction keyword, date text). -/
def timeScan : List Char → Option (List Char × List Char)
  | [] => none
  | c :: rest =>
    match timeAt (c :: rest) with
    | some m => some m
    | none => timeScan rest

def exclusionKeywords : List (List Char) :=
  ["but not", "exclude", "without", "except"].map String.toList

def exclusionAt (l : List Char) : Bool :=
  exclusionKeywords.any fun kw =>
    leadsWith kw l &&
      ((l.drop kw.length).takeWhile isPySpace).length > 0

/-- Leftmost match of the exclusion_request pattern (line 218): a keyword
followed by whitespace; the trailing group of the pattern is a lazy dot-star
at the end of the pattern, which always captures the EMPTY string. -/
def exclusionScan : List Char → Bool
  | [] => false
  | c :: rest => exclusionAt (c :: rest) || exclusionScan rest

mutual

/-- re.split on a run of commas and whitespace; splitting the empty string
yields one empty piece, exactly as re.split does. -/
def reSplitSepAux : List Char → List Char → List (List Char)
  | [], acc => [acc.reverse]
  | c :: rest, acc =>
    if c = ',' || isPySpace c then acc.reverse :: reSplitSkip rest
    else reSplitSepAux rest (c :: acc)

def reSplitSkip : List Char → List (List Char)
  | [] => [[]]
  | c :: rest =>
    if c = ',' || isPySpace c then reSplitSkip rest
    else reSplitSepAux rest [c]

end

structure Restrictions where
  site : Option String
  exclude_sites : List String
  filetype : Option String
  date_after : Option String
  date_before : Option String
  exclude_terms : List String
deriving DecidableEq

/-- _parse_restrictions (lines 184-225).  exclude_sites is initialised to the
empty list and never assigned.  The exclusion branch captures the empty
string (lazy trailing group), so after strip, split and the non-empty filter
the exclude_terms list is always empty. -/
def parse_restrictions (request : String) : Restrictions :=
  let chars := request.toList
  let low := chars.map Char.toLower
  let site := (siteScan chars).map String.mk
  let ft : Option String :=
    if hasSub "pdf".toList low then some "pdf"
    else if hasSub "document".toList low then some "doc"
    else if hasSub "spreadsheet".toList low then some "xls"
    else none
  let tm := timeScan chars
  let da : Option String :=
    match tm with
    | some (dir, date) =>
        if dir = "after".toList ∨ dir = "since".toList then some (String.mk date)
        else none
    | none => none
  let db : Option String :=
    match tm with
    | some (dir, date) =>
        if dir = "after".toList ∨ dir = "since".toList then none
        else some (String.mk date)
    | none => none
  let terms : List String :=
    if exclusionScan chars then
      ((reSplitSepAux (pyStrip [] ) []).map String.mk).filter (fun t => t ≠ "")
    else []
  { site := site, exclude_sites := [], filetype := ft,
    date_after := da, date_before := db, exclude_terms := terms }

/-- One attempt of the content_location pattern at a fixed position
(line 47): literal in, whitespace, then one of title, url, text,
paragraph with optional trailing s; returns the captured group. -/
def focusAt (l : List Char) : Option String :=
  if leadsWith "in".toList l then
    let after := l.drop 2
    let ws := after.takeWhile isPySpace
    let rest := after.drop ws.length
    if ws.length > 0 then
      if leadsWith "title".toList rest then some "title"
      else if leadsWith "url".toList rest then some "url"
      else if leadsWith "text".toList rest then some "text"
      else if leadsWith "paragraphs".toList rest then some "paragraphs"
      else if leadsWith "paragraph".toList rest then some "paragraph"
      else none
    else none
  else none

def focusScan : List Char → Option String
  | [] => none
  | c :: rest =>
    match focusAt (c :: rest) with
    | some f => some f
    | none => focusScan rest

/-- _detect_content_focus (lines 227-239): searches the pattern on the
lowercased request and maps the captured group to an operator tag. -/
def detect_content_focus (request : String) : Option String :=
  let low := request.toList.map Char.toLower
  match focusScan low with
  | some g =>
      if g = "title" then some "intitle"
      else if g = "url" then some "inurl"
      else if g = "text" ∨ g = "paragraph" ∨ g = "paragraphs" then some "intext"
      else none
  | none => none

/-! ## Operator Compiler and Query Translator -/

def exact_phrase (t : String) : String := "\"" ++ t ++ "\""

def site_restrict (d : String) : String := "site:" ++ d

def exclude_site (d : String) : String := "-site:" ++ d

def filetypeOp (e : String) : String := "filetype:" ++ e

def dateAfterOp (d : String) : String := "after:" ++ d

def excludeTermOp (t : String) : String := "-" ++ t

def proximityOp (a b : String) (d : Nat) : String :=
  "\"" ++ a ++ "\" AROUND(" ++ toString d ++ ") \"" ++ b ++ "\""

def stripQuotes (s : String) : String := String.mk (s.toList.filter (· ≠ '"'))

/-- _apply_content_focus (lines 241-250): the scoped operators, applied to
the base text with all double quotes removed. -/
def apply_content_focus (focus : String) (base : String) : String :=
  if focus = "intitle" then "intitle:\"" ++ stripQuotes base ++ "\""
  else if focus = "inurl" then "inurl:" ++ stripQuotes base
  else if focus = "intext" then "intext:\"" ++ stripQuotes base ++ "\""
  else base

def proximityChain (es : List String) (d : Nat) : List String :=
  match es with
  | a :: b :: rest => proximityOp a b d :: proximityChain (b :: rest) d
  | _ => []

/-- _build_proximity_query (lines 252-267). -/
def build_proximity_query (entities : List String) (d : Nat) : String :=
  match entities with
  | [] => ""
  | [e] => exact_phrase e
  | [a, b] => proximityOp a b d
  | es => String.intercalate " " (proximityChain es d)

def generate_purpose (request : String) : String :=
  "Research query: " ++ String.mk (request.toList.take 100) ++
    (if request.toList.length > 100 then "..." else "")

/-- The entity/proximity query body of translate_request (lines 77-85).
Python tests `relationships["proximity"] and len(entities) >= 2`; a zero
distance is falsy, hence the 0 < d guard. -/
def queryBodyParts (request : String) : List String :=
  let entities := extract_entities request
  let rel := detect_relationships request
  match rel.proximity with
  | some d =>
      if 0 < d ∧ 2 ≤ entities.length then [build_proximity_query entities d]
      else entities.map exact_phrase
  | none => entities.map exact_phrase

/-- The content-focus replacement step (lines 88-91): when a focus was
detected the whole fragment list is replaced by one scoped operator wrapping
the FIRST fragment (or the raw request when there is none). -/
def queryBodyAfterFocus (request : String) : List String :=
  let body := queryBodyParts request
  match detect_content_focus request with
  | some f => [apply_content_focus f (body.headD request)]
  | none => body

/-- The restriction fragments appended by translate_request
(lines 93-122), in program order; Python truthiness makes an empty
user-restriction string and empty parsed fields no-ops. -/
def restrictionParts (request : String) (source_restrictions : Option String) :
    List String :=
  let restr := parse_restrictions request
  (match source_restrictions with
   | some sr => if sr ≠ "" then [sr] else []
   | none => [])
  ++ (match restr.site with
      | some s => if s ≠ "" then [site_restrict s] else []
      | none => [])
  ++ restr.exclude_sites.map exclude_site
  ++ (match restr.filetype with
      | some e => if e ≠ "" then [filetypeOp e] else []
      | none => [])
  ++ (match restr.date_after with
      | some d => if d ≠ "" then [dateAfterOp d] else []
      | none => [])
  ++ restr.exclude_terms.map excludeTermOp

/-- The restriction fragments as a function of an already parsed
RestrictionSet; restrictionParts request sr is definitionally
restrictionPartsOf (parse_restrictions request) sr. -/
def restrictionPartsOf (restr : Restrictions) (source_restrictions : Option String) :
    List String :=
  (match source_restrictions with
   | some sr => if sr ≠ "" then [sr] else []
   | none => [])
  ++ (match restr.site with
      | some s => if s ≠ "" then [site_restrict s] else []
      | none => [])
  ++ restr.exclude_sites.map exclude_site
  ++ (match restr.filetype with
      | some e => if e ≠ "" then [filetypeOp e] else []
      | none => [])
  ++ (match restr.date_after with
      | some d => if d ≠ "" then [dateAfterOp d] else []
      | none => [])
  ++ restr.exclude_terms.map excludeTermOp

structure SearchQueryT where
  query : String
  purpose : String
deriving DecidableEq

/-- translate_request (lines 52-131); the operator_breakdown dict is not
modelled (no checked claim mentions it). -/
def translate_request (request0 : String) (source_restrictions : Option String) :
    SearchQueryT :=
  let request := pyStripStr request0
  let parts := queryBodyAfterFocus request ++ restrictionParts request source_restrictions
  { query := String.intercalate " " parts,
    purpose := generate_purpose request }

/-! ## validate_and_convert_query (src/google_search.py lines 299-324) -/

def joinWordsStr (ws : List (List Char)) : String := String.mk (joinWords ws)

/-- validate_and_convert_query: rejects empty or whitespace-only input,
then strips, collapses internal whitespace and truncates to 2048
characters. -/
def validate_and_convert_query (q : String) : Except String String :=
  if q.toList.isEmpty || (pyStrip q.toList).isEmpty then
    .error "Query cannot be empty"
  else
    let stripped := pyStrip q.toList
    let collapsed := joinWords (pySplit stripped)
    let truncated := if collapsed.length > 2048 then collapsed.take 2048 else collapsed
    .ok (String.mk truncated)

/-! ## Interleaving model for concurrent search invocations

Two concurrent search_google_custom invocations share the process-wide
limiter.  Each invocation performs the check step (can_make_request,
line 147) and, when permitted, later the record step (record_request,
line 180); the aiohttp awaits between the two steps are suspension points of
the event loop, so the steps of the two invocations may interleave in any
order.  Phases: 0 = before the check, 1 = check returned true (the
invocation proceeds to dispatch), 2 = dispatched and recorded,
3 = check returned false (the invocation failed with the rate-limit
error). -/

structure ConcState where
  limiter : LimiterState
  phase1 : Nat
  phase2 : Nat
deriving DecidableEq

def stepPhase (cfg : LimiterConfig) (now : Nat) (phase : Nat)
    (lim : LimiterState) : Nat × LimiterState :=
  if phase = 0 then
    let c := canMakeRequest cfg now lim
    (if c.1 then 1 else 3, c.2)
  else if phase = 1 then (2, recordRequest now lim)
  else (phase, lim)

/-- Runs a schedule; true steps the first invocation, false the second. -/
def runSched (cfg : LimiterConfig) (now : Nat) :
    List Bool → ConcState → ConcState
  | [], s => s
  | b :: rest, s =>
    if b then
      let p := stepPhase cfg now s.phase1 s.limiter
      runSched cfg now rest ⟨p.2, p.1, s.phase2⟩
    else
      let p := stepPhase cfg now s.phase2 s.limiter
      runSched cfg now rest ⟨p.2, s.phase1, p.1⟩

/-! ## Shared concrete fixtures -/

def cfgRL : LimiterConfig := ⟨100, 10⟩

def stFresh : LimiterState := ⟨0, [], 0⟩

/-! ## Helper lemmas -/

theorem mem_dedupAux (l : List String) :
    ∀ seen x, x ∈ dedupAux l seen ↔ x ∈ l ∧ x ∉ seen := by
  induction l with
  | nil => intro seen x; simp [dedupAux]
  | cons y rest ih =>
    intro seen x
    by_cases hy : y ∈ seen
    · rw [dedupAux, if_pos hy, ih]
      constructor
      · rintro ⟨hx, hs⟩; exact ⟨List.mem_cons_of_mem _ hx, hs⟩
      · rintro ⟨hx, hs⟩
        rcases List.mem_cons.mp hx with rfl | hx
        · exact absurd hy hs
        · exact ⟨hx, hs⟩
    · rw [dedupAux, if_neg hy]
      constructor
      · intro hx
        rcases List.mem_cons.mp hx with rfl | hx
        · exact ⟨List.mem_cons_self _ _, hy⟩
        · rcases (ih _ _).mp hx with ⟨hr, hs⟩
          refine ⟨List.mem_cons_of_mem _ hr, ?_⟩
          intro hxs
          exact hs (List.mem_cons_of_mem _ hxs)
      · rintro ⟨hx, hs⟩
        rcases List.mem_cons.mp hx with rfl | hx
        · exact List.mem_cons_self _ _
        · by_cases hxy : x = y
          · subst hxy; exact List.mem_cons_self _ _
          · exact List.mem_cons_of_mem _ ((ih _ _).mpr
              ⟨hx, fun hxs => hs (by
                rcases List.mem_cons.mp hxs with h | h
                · exact absurd h hxy
                · exact h)⟩)

theorem mem_dedupKeepFirst {l : List String} {x : String} :
    x ∈ dedupKeepFirst l ↔ x ∈ l := by
  rw [dedupKeepFirst, mem_dedupAux]; simp

theorem all_dropWhile_self (p : Char → Bool) (l : List Char) :
    (l.dropWhile p).all p = l.all p := by
  induction l with
  | nil => rfl
  | cons c rest ih =>
    by_cases hc : p c
    · rw [List.dropWhile_cons_of_pos hc, ih, List.all_cons, hc, Bool.true_and]
    · rw [List.dropWhile_cons_of_neg hc]

theorem pyStrip_eq_nil_iff (l : List Char) :
    pyStrip l = [] ↔ l.all isPySpace = true := by
  constructor
  · intro h
    have h1 : (l.dropWhile isPySpace).reverse.dropWhile isPySpace = [] := by
      rw [pyStrip] at h
      exact List.reverse_eq_nil_iff.mp h
    have h2 : ((l.dropWhile isPySpace).reverse.dropWhile isPySpace).all isPySpace
        = true := by rw [h1]; rfl
    rw [all_dropWhile_self, List.all_reverse, all_dropWhile_self] at h2
    exact h2
  · intro h
    have h1 : l.dropWhile isPySpace = [] :=
      List.dropWhile_eq_nil_iff.mpr (fun x hx => List.all_eq_true.mp h x hx)
    rw [pyStrip, h1]; rfl

theorem searchLoop_trace_nil (backend : Nat → Nat → BackendResponse)
    (fuel needed start : Nat) (acc : List SearchResultItem)
    (st : LimiterState) (now : Nat) (h : ¬(0 < needed ∧ start ≤ 100)) :
    (searchLoop backend fuel needed start acc st now).2.2 = [] := by
  cases fuel with
  | zero => rfl
  | succ f =>
    simp only [searchLoop]
    rw [if_neg h]

theorem searchLoop_first_dispatch (backend : Nat → Nat → BackendResponse)
    (f needed start : Nat) (acc : List SearchResultItem)
    (st : LimiterState) (now : Nat) (h1 : 0 < needed) (h2 : start ≤ 100) :
    ∃ rest, (searchLoop backend (f + 1) needed start acc st now).2.2
      = SearchEvent.dispatched start (min needed 10) :: rest := by
  simp only [searchLoop]
  rw [if_pos ⟨h1, h2⟩]
  cases hb : backend start (min needed 10) with
  | ok items =>
    dsimp only
    by_cases hlt : items.length < min needed 10
    · rw [if_pos hlt]
      exact ⟨_, rfl⟩
    · rw [if_neg hlt]
      exact ⟨_, rfl⟩
  | status429 => exact ⟨_, rfl⟩
  | status403 msg => exact ⟨_, rfl⟩
  | statusOther code body => exact ⟨_, rfl⟩
  | transportError m => exact ⟨_, rfl⟩

theorem searchLoop_dispatch_bounds (backend : Nat → Nat → BackendResponse)
    (fuel : Nat) :
    ∀ needed start acc st now s n,
      SearchEvent.dispatched s n ∈ (searchLoop backend fuel needed start acc st now).2.2 →
      0 < n ∧ n ≤ 10 ∧ s ≤ 100 := by
  induction fuel with
  | zero => intro needed start acc st now s n hmem; simp [searchLoop] at hmem
  | succ f ih =>
    intro needed start acc st now s n hmem
    simp only [searchLoop] at hmem
    by_cases hc : 0 < needed ∧ start ≤ 100
    · rw [if_pos hc] at hmem
      cases hb : backend start (min needed 10) with
      | ok items =>
        rw [hb] at hmem
        dsimp only at hmem
        by_cases hlt : items.length < min needed 10
        · rw [if_pos hlt] at hmem
          simp only [List.mem_cons, List.mem_singleton] at hmem
          rcases hmem with h | h | h
          · cases h
            exact ⟨by omega, by omega, hc.2⟩
          · cases h
          · simp at h
        · rw [if_neg hlt] at hmem
          simp only [List.mem_cons] at hmem
          rcases hmem with h | h | h
          · cases h
            exact ⟨by omega, by omega, hc.2⟩
          · cases h
          · exact ih _ _ _ _ _ _ _ h
      | status429 =>
        rw [hb] at hmem
        simp only [List.mem_cons, List.mem_singleton] at hmem
        rcases hmem with h | h | h
        · cases h
          exact ⟨by omega, by omega, hc.2⟩
        · cases h
        · simp at h
      | status403 msg =>
        rw [hb] at hmem
        simp only [List.mem_cons, List.mem_singleton] at hmem
        rcases hmem with h | h | h
        · cases h
          exact ⟨by omega, by omega, hc.2⟩
        · cases h
        · simp at h
      | statusOther code body =>
        rw [hb] at hmem
        simp only [List.mem_cons, List.mem_singleton] at hmem
        rcases hmem with h | h | h
        · cases h
          exact ⟨by omega, by omega, hc.2⟩
        · cases h
        · simp at h
      | transportError m =>
        rw [hb] at hmem
        simp only [List.mem_singleton] at hmem
        cases hmem
        exact ⟨by omega, by omega, hc.2⟩
    · rw [if_neg hc] at hmem
      simp at hmem

theorem searchLoop_countChecked (backend : Nat → Nat → BackendResponse)
    (fuel : Nat) :
    ∀ needed start acc st now,
      countChecked (searchLoop backend fuel needed start acc st now).2.2 = 0 := by
  induction fuel with
  | zero => intro needed start acc st now; rfl
  | succ f ih =>
    intro needed start acc st now
    simp only [searchLoop]
    by_cases hc : 0 < needed ∧ start ≤ 100
    · rw [if_pos hc]
      cases hb : backend start (min needed 10) with
      | ok items =>
        dsimp only
        by_cases hlt : items.length < min needed 10
        · rw [if_pos hlt]
          rfl
        · rw [if_neg hlt]
          dsimp only
          simp only [countChecked, List.countP_cons, isCheckedEvent]
          have := ih (needed - items.length) (start + items.length)
            (acc ++ normalizeItems items acc.length) (recordRequest now st) now
          simp only [countChecked] at this
          simp [this]
      | status429 => rfl
      | status403 msg => rfl
      | statusOther code body => rfl
      | transportError m => rfl
    · rw [if_neg hc]
      rfl

theorem searchLoop_wellRecorded (backend : Nat → Nat → BackendResponse)
    (fuel : Nat) :
    ∀ needed start acc st now,
      wellRecorded (searchLoop backend fuel needed start acc st now).2.2 = true := by
  induction fuel with
  | zero => intro needed start acc st now; rfl
  | succ f ih =>
    intro needed start acc st now
    simp only [searchLoop]
    by_cases hc : 0 < needed ∧ start ≤ 100
    · rw [if_pos hc]
      cases hb : backend start (min needed 10) with
      | ok items =>
        dsimp only
        by_cases hlt : items.length < min needed 10
        · rw [if_pos hlt]
          rfl
        · rw [if_neg hlt]
          simp only [wellRecorded]
          exact ih (needed - items.length) (start + items.length)
            (acc ++ normalizeItems items acc.length) (recordRequest now st) now
      | status429 => rfl
      | status403 msg => rfl
      | statusOther code body => rfl
      | transportError m => rfl
    · rw [if_neg hc]
      rfl

theorem searchLoop_endsDispatched (backend : Nat → Nat → BackendResponse)
    (fuel : Nat) :
    ∀ needed start acc st now,
      endsWithDispatched (searchLoop backend fuel needed start acc st now).2.2 = true →
      ∃ m, (searchLoop backend fuel needed start acc st now).1 = LoopExit.client m := by
  induction fuel with
  | zero => intro needed start acc st now h; simp [searchLoop, endsWithDispatched] at h
  | succ f ih =>
    intro needed start acc st now h
    simp only [searchLoop] at h ⊢
    by_cases hc : 0 < needed ∧ start ≤ 100
    · rw [if_pos hc] at h ⊢
      cases hb : backend start (min needed 10) with
      | ok items =>
        rw [hb] at h
        dsimp only at h ⊢
        by_cases hlt : items.length < min needed 10
        · rw [if_pos hlt] at h
          simp [endsWithDispatched] at h
        · rw [if_neg hlt] at h ⊢
          dsimp only at h ⊢
          rcases h3 : (searchLoop backend f (needed - items.length)
              (start + items.length) (acc ++ normalizeItems items acc.length)
              (recordRequest now st) now).2.2 with _ | ⟨e, tl⟩
          · rw [h3] at h
            simp [endsWithDispatched] at h
          · rw [h3] at h
            have h4 : endsWithDispatched (searchLoop backend f (needed - items.length)
                (start + items.length) (acc ++ normalizeItems items acc.length)
                (recordRequest now st) now).2.2 = true := by
              rw [h3]
              cases e <;> cases tl <;> simp_all [endsWithDispatched]
            exact ih _ _ _ _ _ h4
      | status429 =>
        rw [hb] at h
        simp [endsWithDispatched] at h
      | status403 msg =>
        rw [hb] at h
        simp [endsWithDispatched] at h
      | statusOther code body =>
        rw [hb] at h
        simp [endsWithDispatched] at h
      | transportError m =>
        exact ⟨m, rfl⟩
    · rw [if_neg hc] at h
      simp [endsWithDispatched] at h

/-! ## Claim theorems -/

/-- Claim C1: with maxResults = 25 against a backend returning exactly the
requested number of items per page, exactly 3 page requests are issued with
start parameters 1, 11, 21 and num parameters 10, 10, 5 in that order; in
general the first page of any loop entry requests min(resultsNeeded, 10)
items, the loop issues nothing once resultsNeeded = 0 or currentStart > 100,
and every issued page has 0 < num <= 10 and start <= 100. -/
theorem c1_pagination_page_parameters :
    dispatchParams (search_google_custom cfgRL fullPageBackend 0 stFresh 25 1).2.2
        = [(1, 10), (11, 10), (21, 5)]
    ∧ (∀ (backend : Nat → Nat → BackendResponse) (f needed start : Nat)
        (acc : List SearchResultItem) (st : LimiterState) (now : Nat),
        0 < needed → start ≤ 100 →
        ∃ rest, (searchLoop backend (f + 1) needed start acc st now).2.2
          = SearchEvent.dispatched start (min needed 10) :: rest)
    ∧ (∀ (backend : Nat → Nat → BackendResponse) (fuel needed start : Nat)
        (acc : List SearchResultItem) (st : LimiterState) (now : Nat),
        ¬(0 < needed ∧ start ≤ 100) →
        (searchLoop backend fuel needed start acc st now).2.2 = [])
    ∧ (∀ (backend : Nat → Nat → BackendResponse) (fuel needed start : Nat)
        (acc : List SearchResultItem) (st : LimiterState) (now : Nat) (s n : Nat),
        SearchEvent.dispatched s n ∈ (searchLoop backend fuel needed start acc st now).2.2 →
        0 < n ∧ n ≤ 10 ∧ s ≤ 100) := by
  refine ⟨by decide, ?_, ?_, ?_⟩
  · intro backend f needed start acc st now h1 h2
    exact searchLoop_first_dispatch backend f needed start acc st now h1 h2
  · intro backend fuel needed start acc st now h
    exact searchLoop_trace_nil backend fuel needed start acc st now h
  · intro backend fuel needed start acc st now s n h
    exact searchLoop_dispatch_bounds backend fuel needed start acc st now s n h

/-- Witness for C1: the general conjuncts evaluated at a concrete input. -/
theorem c1_pagination_witness :
    (∃ rest, (searchLoop fullPageBackend 1 7 50 [] stFresh 0).2.2
        = SearchEvent.dispatched 50 (min 7 10) :: rest)
    ∧ (searchLoop fullPageBackend 3 0 1 [] stFresh 0).2.2 = [] :=
  ⟨c1_pagination_page_parameters.2.1 fullPageBackend 0 7 50 [] stFresh 0
      (by decide) (by decide),
   c1_pagination_page_parameters.2.2.1 fullPageBackend 3 0 1 [] stFresh 0
      (by decide)⟩

/-- Claim C2 counterexample: a two-page invocation (minute limit 1,
maxResults 20, full pages) dispatches its second page without any further
rate-limit check, although a fresh check after the first record would have
returned false; so it is not the case that every page request is preceded by
a quota check that returned true. -/
theorem c2_per_page_check_counterexample :
    countDispatched (search_google_custom ⟨100, 1⟩ fullPageBackend 0 stFresh 20 1).2.2 = 2
    ∧ dispatchesFreshlyChecked false
        (search_google_custom ⟨100, 1⟩ fullPageBackend 0 stFresh 20 1).2.2 = false
    ∧ (search_google_custom ⟨100, 1⟩ fullPageBackend 0 stFresh 20 1).2.2
        = [SearchEvent.checked true, SearchEvent.dispatched 1 10, SearchEvent.recorded,
           SearchEvent.dispatched 11 10, SearchEvent.recorded]
    ∧ (canMakeRequest ⟨100, 1⟩ 0
        (recordRequest 0 (canMakeRequest ⟨100, 1⟩ 0 stFresh).2)).1 = false := by
  exact ⟨by decide, by decide, by decide, by decide⟩

/-- Claim C2 (amended): the quota tracker is consulted exactly once per
invocation, before the first page request; when that single check returns
false the call fails with the rate-limit error carrying the reset estimate
and no page request is dispatched; later pages are issued without further
checks. -/
theorem c2_single_check_before_first_page :
    ∀ (cfg : LimiterConfig) (backend : Nat → Nat → BackendResponse)
      (now : Nat) (st : LimiterState) (maxResults startIndex : Nat),
      countChecked (search_google_custom cfg backend now st maxResults startIndex).2.2 = 1
      ∧ (search_google_custom cfg backend now st maxResults startIndex).2.2.head?
          = some (SearchEvent.checked (canMakeRequest cfg now st).1)
      ∧ ((canMakeRequest cfg now st).1 = false →
          (search_google_custom cfg backend now st maxResults startIndex).1
            = SearchOutcome.error ("Rate limit exceeded. Try again in "
                ++ getResetTime cfg now (canMakeRequest cfg now st).2)
          ∧ countDispatched
              (search_google_custom cfg backend now st maxResults startIndex).2.2 = 0) := by
  intro cfg backend now st maxResults startIndex
  simp only [search_google_custom]
  cases hc : (canMakeRequest cfg now st).1 with
  | false =>
    refine ⟨rfl, rfl, fun _ => ⟨rfl, rfl⟩⟩
  | true =>
    have hcnt := searchLoop_countChecked backend maxResults maxResults startIndex []
      (canMakeRequest cfg now st).2 now
    rcases hl : searchLoop backend maxResults maxResults startIndex []
        (canMakeRequest cfg now st).2 now with ⟨res, st2, tr⟩
    rw [hl] at hcnt
    cases res with
    | results items =>
      refine ⟨?_, rfl, fun hfalse => by cases hfalse⟩
      simpa [countChecked, List.countP_cons, isCheckedEvent] using hcnt
    | raised m =>
      refine ⟨?_, rfl, fun hfalse => by cases hfalse⟩
      simpa [countChecked, List.countP_cons, isCheckedEvent] using hcnt
    | client m =>
      refine ⟨?_, rfl, fun hfalse => by cases hfalse⟩
      simpa [countChecked, List.countP_cons, isCheckedEvent] using hcnt

/-- Witness for C2 (amended): with a daily limit of 0 the single check
denies, the call fails with the rate-limit error and nothing is
dispatched. -/
theorem c2_single_check_witness :
    (search_google_custom ⟨0, 10⟩ fullPageBackend 0 stFresh 5 1).1
      = SearchOutcome.error ("Rate limit exceeded. Try again in "
          ++ getResetTime ⟨0, 10⟩ 0 (canMakeRequest ⟨0, 10⟩ 0 stFresh).2)
    ∧ countDispatched (search_google_custom ⟨0, 10⟩ fullPageBackend 0 stFresh 5 1).2.2 = 0 :=
  (c2_single_check_before_first_page ⟨0, 10⟩ fullPageBackend 0 stFresh 5 1).2.2
    (by decide)

set_option maxRecDepth 8192 in
/-- Claim C4: backend failures are mapped by response: HTTP 429 to the
backend rate-limit message, HTTP 403 to the API error carrying the
backend-supplied message (or its default), any other status to the message
carrying the status code and the body truncated to 200 characters, and a
transport failure to the network error; each reaches the caller as an error
(never a result list) and the four messages are distinct.  The first three
messages carry the "Unexpected error: " prefix added when the final
`except Exception` clause of search_google_custom re-wraps the
GoogleCustomSearchError raised inside the try block. -/
theorem c4_error_classification :
    (∀ om : Option String,
      (search_google_custom cfgRL (fun _ _ => BackendResponse.status403 om)
          0 stFresh 5 1).1
        = SearchOutcome.error ("Unexpected error: " ++ ("API Error: "
            ++ om.getD "API key invalid or quota exceeded")))
    ∧ (search_google_custom cfgRL (fun _ _ => BackendResponse.status429)
          0 stFresh 5 1).1
        = SearchOutcome.error "Unexpected error: Rate limit exceeded by Google API"
    ∧ (∀ (code : Nat) (body : String),
        (search_google_custom cfgRL (fun _ _ => BackendResponse.statusOther code body)
            0 stFresh 5 1).1
          = SearchOutcome.error ("Unexpected error: "
              ++ ("API request failed with status " ++ toString code ++ ": "
                  ++ body.take 200)))
    ∧ (∀ m : String,
        (search_google_custom cfgRL (fun _ _ => BackendResponse.transportError m)
            0 stFresh 5 1).1
          = SearchOutcome.error ("Network error: " ++ m))
    ∧ (∀ items : List SearchResultItem,
        (search_google_custom cfgRL (fun _ _ => BackendResponse.status429)
            0 stFresh 5 1).1 ≠ SearchOutcome.ok items)
    ∧ ((search_google_custom cfgRL (fun _ _ => BackendResponse.status429)
          0 stFresh 5 1).1
        ≠ (search_google_custom cfgRL (fun _ _ => BackendResponse.status403 none)
            0 stFresh 5 1).1
      ∧ (search_google_custom cfgRL (fun _ _ => BackendResponse.status429)
          0 stFresh 5 1).1
        ≠ (search_google_custom cfgRL (fun _ _ => BackendResponse.statusOther 500 "boom")
            0 stFresh 5 1).1
      ∧ (search_google_custom cfgRL (fun _ _ => BackendResponse.status429)
          0 stFresh 5 1).1
        ≠ (search_google_custom cfgRL (fun _ _ => BackendResponse.transportError "boom")
            0 stFresh 5 1).1
      ∧ (search_google_custom cfgRL (fun _ _ => BackendResponse.status403 none)
          0 stFresh 5 1).1
        ≠ (search_google_custom cfgRL (fun _ _ => BackendResponse.statusOther 500 "boom")
            0 stFresh 5 1).1
      ∧ (search_google_custom cfgRL (fun _ _ => BackendResponse.status403 none)
          0 stFresh 5 1).1
        ≠ (search_google_custom cfgRL (fun _ _ => BackendResponse.transportError "boom")
            0 stFresh 5 1).1
      ∧ (search_google_custom cfgRL (fun _ _ => BackendResponse.statusOther 500 "boom")
          0 stFresh 5 1).1
        ≠ (search_google_custom cfgRL (fun _ _ => BackendResponse.transportError "boom")
            0 stFresh 5 1).1) := by
  refine ⟨fun om => rfl, by decide, fun code body => rfl, fun m => rfl,
    fun items h => SearchOutcome.noConfusion h, by decide, by decide, by decide,
    by decide, by decide, by decide⟩

/-- Claim C5 counterexample: a page request that ends in a transport-level
failure is dispatched but never recorded, so record() is not called exactly
once per attempted backend call. -/
theorem c5_record_on_transport_counterexample :
    countDispatched (search_google_custom cfgRL
        (fun _ _ => BackendResponse.transportError "boom") 0 stFresh 5 1).2.2 = 1
    ∧ countRecorded (search_google_custom cfgRL
        (fun _ _ => BackendResponse.transportError "boom") 0 stFresh 5 1).2.2 = 0 := by
  exact ⟨by decide, by decide⟩

/-- Claim C5 (amended): in every invocation trace, each dispatched page that
received an HTTP response (success, 429, 403 or any other status) is
immediately followed by exactly one record, records occur nowhere else, and
the only dispatch that is not followed by a record is a final one whose page
failed at the transport level, in which case the call fails with the network
error. -/
theorem c5_record_per_http_response :
    ∀ (cfg : LimiterConfig) (backend : Nat → Nat → BackendResponse)
      (now : Nat) (st : LimiterState) (maxResults startIndex : Nat),
      wellRecorded (search_google_custom cfg backend now st maxResults startIndex).2.2 = true
      ∧ (endsWithDispatched
            (search_google_custom cfg backend now st maxResults startIndex).2.2 = true →
          ∃ m, (search_google_custom cfg backend now st maxResults startIndex).1
            = SearchOutcome.error ("Network error: " ++ m)) := by
  intro cfg backend now st maxResults startIndex
  simp only [search_google_custom]
  cases hc : (canMakeRequest cfg now st).1 with
  | false =>
    refine ⟨rfl, fun h => ?_⟩
    simp [endsWithDispatched] at h
  | true =>
    have hwr := searchLoop_wellRecorded backend maxResults maxResults startIndex []
      (canMakeRequest cfg now st).2 now
    have hed := searchLoop_endsDispatched backend maxResults maxResults startIndex []
      (canMakeRequest cfg now st).2 now
    rcases hl : searchLoop backend maxResults maxResults startIndex []
        (canMakeRequest cfg now st).2 now with ⟨res, st2, tr⟩
    rw [hl] at hwr hed
    cases res with
    | results items =>
      refine ⟨hwr, fun h => ?_⟩
      have h2 : endsWithDispatched tr = true := by
        rcases tr with _ | ⟨e, tl⟩
        · simp [endsWithDispatched] at h
        · cases e <;> cases tl <;> simp_all [endsWithDispatched]
      rcases hed h2 with ⟨m, hm⟩
      cases hm
    | raised m =>
      refine ⟨hwr, fun h => ?_⟩
      have h2 : endsWithDispatched tr = true := by
        rcases tr with _ | ⟨e, tl⟩
        · simp [endsWithDispatched] at h
        · cases e <;> cases tl <;> simp_all [endsWithDispatched]
      rcases hed h2 with ⟨m2, hm⟩
      cases hm
    | client m =>
      exact ⟨hwr, fun _ => ⟨m, rfl⟩⟩

/-- Witness for C5 (amended): the transport-failure run evaluated
concretely. -/
theorem c5_record_witness :
    wellRecorded (search_google_custom cfgRL
        (fun _ _ => BackendResponse.transportError "down") 0 stFresh 3 1).2.2 = true
    ∧ ∃ m, (search_google_custom cfgRL
        (fun _ _ => BackendResponse.transportError "down") 0 stFresh 3 1).1
          = SearchOutcome.error ("Network error: " ++ m) :=
  ⟨(c5_record_per_http_response cfgRL
      (fun _ _ => BackendResponse.transportError "down") 0 stFresh 3 1).1,
   (c5_record_per_http_response cfgRL
      (fun _ _ => BackendResponse.transportError "down") 0 stFresh 3 1).2 (by decide)⟩

theorem toList_mk (l : List Char) : (String.mk l).toList = l := rfl

/-- Claim C9: validate_and_convert_query rejects exactly the empty and
whitespace-only queries (with no network involved: the function is pure),
and every accepted query is returned stripped, whitespace-collapsed and
truncated to at most 2048 characters. -/
theorem c9_validate_query :
    ∀ q : String,
      (validate_and_convert_query q = Except.error "Query cannot be empty"
        ↔ q.toList.all isPySpace = true)
      ∧ (∀ out, validate_and_convert_query q = Except.ok out →
          out.toList = (joinWords (pySplit (pyStrip q.toList))).take 2048
          ∧ out.toList.length ≤ 2048) := by
  intro q
  have hcond : (q.toList.isEmpty || (pyStrip q.toList).isEmpty) = true
      ↔ q.toList.all isPySpace = true := by
    rw [Bool.or_eq_true]
    constructor
    · rintro (h | h)
      · have h2 : q.toList = [] := by
          cases hq : q.toList with
          | nil => rfl
          | cons a l => rw [hq] at h; cases h
        rw [h2]; rfl
      · have h2 : pyStrip q.toList = [] := by
          cases hp : pyStrip q.toList with
          | nil => rfl
          | cons a l => rw [hp] at h; cases h
        exact (pyStrip_eq_nil_iff _).mp h2
    · intro h
      right
      have h2 := (pyStrip_eq_nil_iff _).mpr h
      rw [h2]; rfl
  by_cases hc : (q.toList.isEmpty || (pyStrip q.toList).isEmpty) = true
  · refine ⟨⟨fun _ => hcond.mp hc, fun _ => ?_⟩, fun out hout => ?_⟩
    · rw [validate_and_convert_query, if_pos hc]
    · rw [validate_and_convert_query, if_pos hc] at hout
      cases hout
  · refine ⟨⟨fun h => ?_, fun h => absurd (hcond.mpr h) hc⟩, fun out hout => ?_⟩
    · rw [validate_and_convert_query, if_neg hc] at h
      cases h
    · simp only [validate_and_convert_query] at hout
      rw [if_neg hc] at hout
      injection hout with h2
      rw [← h2, toList_mk]
      by_cases hlen : (joinWords (pySplit (pyStrip q.toList))).length > 2048
      · rw [if_pos hlen]
        refine ⟨rfl, ?_⟩
        rw [List.length_take]
        omega
      · rw [if_neg hlen]
        have hle : (joinWords (pySplit (pyStrip q.toList))).length ≤ 2048 := by omega
        exact ⟨(List.take_of_length_le hle).symm, hle⟩

/-- Witness for C9: a concrete accepted query with surrounding and internal
whitespace runs. -/
theorem c9_validate_witness :
    validate_and_convert_query "  hello   world  " = Except.ok "hello world"
    ∧ ("hello world".toList
        = (joinWords (pySplit (pyStrip "  hello   world  ".toList))).take 2048
       ∧ ("hello world".toList).length ≤ 2048) :=
  ⟨rfl, (c9_validate_query "  hello   world  ").2 "hello world" rfl⟩

/-- Claim C10 (the concurrency contract the code does not implement): with a
daily limit of 1 and one request of budget remaining, the interleaving
check1, check2, record1, record2 of two concurrent invocations lets both
checks return true and both proceed, overrunning the budget
(dailyCount reaches 2); under the serialized schedule the second caller is
denied.  No lock exists anywhere in src/google_search.py, and the awaits of
the page request sit between the check and the record. -/
theorem c10_interleaving_overruns_budget :
    (canMakeRequest ⟨1, 10⟩ 0 stFresh).1 = true
    ∧ (runSched ⟨1, 10⟩ 0 [true, false, true, false] ⟨stFresh, 0, 0⟩).phase1 = 2
    ∧ (runSched ⟨1, 10⟩ 0 [true, false, true, false] ⟨stFresh, 0, 0⟩).phase2 = 2
    ∧ (runSched ⟨1, 10⟩ 0 [true, false, true, false] ⟨stFresh, 0, 0⟩).limiter.dailyCount = 2
    ∧ (runSched ⟨1, 10⟩ 0 [true, true, false] ⟨stFresh, 0, 0⟩).phase1 = 2
    ∧ (runSched ⟨1, 10⟩ 0 [true, true, false] ⟨stFresh, 0, 0⟩).phase2 = 3 := by
  exact ⟨by decide, by decide, by decide, by decide, by decide, by decide⟩

/-- Claim C3 counterexample: for a request with two entity fragments and a
detected title focus, the focus replacement keeps only ONE entity inside the
scoped operator; the other fragment of the body built so far is discarded
rather than wrapped, so the scoped operator does not wrap the whole query
body built so far.  The disjunction covers both possible iteration orders of
the unordered Python set used for deduplication. -/
theorem c3_focus_wraps_whole_body_counterexample :
    "Einstein" ∈ extract_entities (pyStripStr "find Einstein and Bohr in title")
    ∧ "Bohr" ∈ extract_entities (pyStripStr "find Einstein and Bohr in title")
    ∧ (detect_relationships (pyStripStr "find Einstein and Bohr in title")).proximity = none
    ∧ ((translate_request "find Einstein and Bohr in title" none).query
          = "intitle:\"Einstein\""
       ∨ (translate_request "find Einstein and Bohr in title" none).query
          = "intitle:\"Bohr\"") := by
  exact ⟨by decide, by decide, by decide, Or.inl (by decide)⟩

/-- Claim C3 (amended): when a content focus is detected, the fragment list
built so far is replaced by exactly one scoped operator wrapping only the
FIRST fragment (or the raw stripped request when no fragment exists), quotes
stripped; no exact-phrase or proximity fragment remains beside it, and any
further fragments are dropped. -/
theorem c3_focus_replaces_with_first_fragment :
    ∀ (r : String) (sr : Option String) (f : String),
      detect_content_focus (pyStripStr r) = some f →
      queryBodyAfterFocus (pyStripStr r)
        = [apply_content_focus f ((queryBodyParts (pyStripStr r)).headD (pyStripStr r))]
      ∧ (translate_request r sr).query
        = String.intercalate " "
            (apply_content_focus f ((queryBodyParts (pyStripStr r)).headD (pyStripStr r))
              :: restrictionParts (pyStripStr r) sr) := by
  intro r sr f h
  have h1 : queryBodyAfterFocus (pyStripStr r)
      = [apply_content_focus f ((queryBodyParts (pyStripStr r)).headD (pyStripStr r))] := by
    simp only [queryBodyAfterFocus, h]
  refine ⟨h1, ?_⟩
  simp only [translate_request, h1]
  rfl

/-- Witness for C3 (amended): the replacement evaluated on a concrete
title-focused request. -/
theorem c3_focus_replaces_witness :
    detect_content_focus (pyStripStr "find Einstein in title") = some "intitle"
    ∧ (queryBodyAfterFocus (pyStripStr "find Einstein in title")
        = [apply_content_focus "intitle"
            ((queryBodyParts (pyStripStr "find Einstein in title")).headD
              (pyStripStr "find Einstein in title"))]
       ∧ (translate_request "find Einstein in title" none).query
          = String.intercalate " "
              (apply_content_focus "intitle"
                  ((queryBodyParts (pyStripStr "find Einstein in title")).headD
                    (pyStripStr "find Einstein in title"))
                :: restrictionParts (pyStripStr "find Einstein in title") none)) :=
  ⟨by decide,
   c3_focus_replaces_with_first_fragment "find Einstein in title" none "intitle"
     (by decide)⟩

/-- Claim C6: the compiled query is the focus-adjusted body followed by the
retained restriction fragments in the fixed order user restriction verbatim,
site, exclude-sites, filetype, date-after, exclude-terms, joined by single
spaces; the parsed date-before field never influences the compiled text,
although the analyzer does extract it. -/
theorem c6_restriction_append_order :
    (∀ (r : String) (sr : Option String),
      (translate_request r sr).query
        = String.intercalate " "
            (queryBodyAfterFocus (pyStripStr r)
              ++ restrictionPartsOf (parse_restrictions (pyStripStr r)) sr))
    ∧ (∀ (restr : Restrictions) (sr : Option String) (db : Option String),
        restrictionPartsOf { restr with date_before := db } sr
          = restrictionPartsOf restr sr)
    ∧ (parse_restrictions "papers before 2019").date_before = some "2019" := by
  exact ⟨fun r sr => rfl, fun restr sr db => rfl, by decide⟩

/-- Claim C7 counterexample: a request with exactly two quoted entities and
the proximity keyword near, but with one additional capitalized-run entity,
compiles to a proximity chain with TWO AROUND clauses, not exactly one. -/
theorem c7_two_quoted_counterexample :
    (findQuoted "how are \"smith\" and \"jones\" described near the Pentagon".toList).map
        String.mk = ["smith", "jones"]
    ∧ hasProximityKeyword "how are \"smith\" and \"jones\" described near the Pentagon"
        = true
    ∧ countOccStr
        (translate_request "how are \"smith\" and \"jones\" described near the Pentagon"
            none).query "AROUND(" = 2 := by
  exact ⟨by decide, by decide, by decide⟩

/-- Claim C7 (amended): when a proximity keyword is present the detected
distance is the explicit within-N-words value when one occurs and 3
otherwise; and for every request whose extracted entity list is exactly the
two entities (and no content focus, nonzero distance), the compiled query
body is the single AROUND(d) clause joining them. -/
theorem c7_proximity_single_around :
    (∀ r : String, hasProximityKeyword r = true →
      (detect_relationships r).proximity
        = some (match findWithin (r.toList.map Char.toLower) with
                | some n => n
                | none => 3))
    ∧ (∀ (r : String) (sr : Option String) (e1 e2 : String) (d : Nat),
        extract_entities (pyStripStr r) = [e1, e2] →
        (detect_relationships (pyStripStr r)).proximity = some d →
        0 < d →
        detect_content_focus (pyStripStr r) = none →
        (translate_request r sr).query
          = String.intercalate " "
              (proximityOp e1 e2 d :: restrictionParts (pyStripStr r) sr)) := by
  constructor
  · intro r h
    simp only [detect_relationships, h, if_true]
    cases hw : findWithin (r.toList.map Char.toLower) <;> simp [hw]
  · intro r sr e1 e2 d he hp hd hf
    have hbody : queryBodyParts (pyStripStr r) = [proximityOp e1 e2 d] := by
      simp only [queryBodyParts, hp, he]
      rw [if_pos ⟨hd, by simp⟩]
      rfl
    have hfoc : queryBodyAfterFocus (pyStripStr r) = [proximityOp e1 e2 d] := by
      simp only [queryBodyAfterFocus, hf, hbody]
    simp only [translate_request, hfoc]
    rfl

/-- Witness for C7 (amended): the single proximity clause evaluated on a
concrete request with two quoted lowercase entities and the keyword
close. -/
theorem c7_proximity_witness :
    (detect_relationships "x close y").proximity = some 3
    ∧ extract_entities (pyStripStr "find \"alpha\" and \"beta\" close together")
        = ["alpha", "beta"]
    ∧ (translate_request "find \"alpha\" and \"beta\" close together" none).query
        = String.intercalate " "
            (proximityOp "alpha" "beta" 3
              :: restrictionParts
                  (pyStripStr "find \"alpha\" and \"beta\" close together") none) :=
  ⟨c7_proximity_single_around.1 "x close y" (by decide),
   by decide,
   c7_proximity_single_around.2 "find \"alpha\" and \"beta\" close together" none
     "alpha" "beta" 3 (by decide) (by decide) (by decide) (by decide)⟩

/-- Claim C8 counterexample: in the request talk about General Smith the
non-maximal sub-run Smith of the maximal capitalized run General Smith
appears as a separate entity next to the maximal run, refuting the claim
that only maximal runs are extracted. -/
theorem c8_nonmaximal_run_counterexample :
    "General Smith" ∈ extract_entities "talk about General Smith"
    ∧ "Smith" ∈ extract_entities "talk about General Smith"
    ∧ (extract_entities "talk about General Smith").length = 2 := by
  exact ⟨by decide, by decide, by decide⟩

/-- Claim C8 (amended): the extracted entity set consists of exactly the
quoted substrings plus, for EVERY capitalized word not at the first
position, the run of consecutive capitalized words starting there (so
suffix-runs of longer runs appear as well), deduplicated by exact match,
with every candidate of stripped length at most 1 discarded; order is
unspecified. -/
theorem c8_entity_membership :
    ∀ (r : String) (e : String),
      e ∈ extract_entities r
      ↔ ((pyStrip e.toList).length > 1
          ∧ e ∈ (findQuoted r.toList).map String.mk
              ++ (capRuns (pySplit r.toList)).map String.mk) := by
  intro r e
  simp only [extract_entities, List.mem_filter, mem_dedupKeepFirst,
    decide_eq_true_eq]
  tauto

/-- Witness for C8 (amended): the characterization applied to a concrete
entity of a concrete request. -/
theorem c8_entity_witness :
    "General Smith" ∈ extract_entities "talk about General Smith"
      ↔ ((pyStrip "General Smith".toList).length > 1
          ∧ "General Smith" ∈ (findQuoted "talk about General Smith".toList).map String.mk
              ++ (capRuns (pySplit "talk about General Smith".toList)).map String.mk) :=
  c8_entity_membership "talk about General Smith" "General Smith"
